import Mathlib

/-!
Verification of `src/docker/jupyter_lab_config.py`.

The file is a sequence of nine assignments to attributes of `c.ServerApp`.
We embed the configuration state as a map from option names to values,
the file as a list of assignment statements, and the effect of loading the
file as the corresponding sequence of updates.
-/

/-- Values a configuration option can hold: strings, booleans, integers,
and (nested) dictionaries with string keys. -/
inductive ConfigValue where
  | str (s : String)
  | bool (b : Bool)
  | int (n : Int)
  | dict (entries : List (String × ConfigValue))

/-- A configuration state maps an option name to its value, if assigned. -/
def ConfigState := String → Option ConfigValue

/-- Assignment `c.ServerApp.<k> = v`: update the state at key `k`. -/
def setOpt (c : ConfigState) (k : String) (v : ConfigValue) : ConfigState :=
  fun q => if q = k then some v else c q

/-- Content-Security-Policy string from line 17 of the file
(\x27 is the single-quote character). -/
def cspValue : String :=
  "frame-ancestors \x27self\x27 *; script-src \x27self\x27 \x27unsafe-inline\x27 \x27unsafe-eval\x27 *; style-src \x27self\x27 \x27unsafe-inline\x27 *;"

/-- The dictionary assigned to `tornado_settings` on lines 15-19. -/
def tornadoSettingsValue : ConfigValue :=
  .dict [("headers", .dict [("Content-Security-Policy", .str cspValue)])]

/-- Loading `jupyter_lab_config.py`: the nine assignments, in source order. -/
def jupyterLabConfig (c : ConfigState) : ConfigState :=
  let c1 := setOpt c "token" (.str "")
  let c2 := setOpt c1 "password" (.str "")
  let c3 := setOpt c2 "ip" (.str "0.0.0.0")
  let c4 := setOpt c3 "allow_origin" (.str "*")
  let c5 := setOpt c4 "allow_remote_access" (.bool true)
  let c6 := setOpt c5 "disable_check_xsrf" (.bool true)
  let c7 := setOpt c6 "port" (.int 8888)
  let c8 := setOpt c7 "allow_iframe" (.bool true)
  setOpt c8 "tornado_settings" tornadoSettingsValue

/-- A statement of the configuration language: an assignment, or a failure
(an exception raised during evaluation). The file only contains assignments;
the failure form is here so that evaluation is genuinely fallible. -/
inductive Stmt where
  | assignOpt (k : String) (v : ConfigValue)
  | raise (msg : String)

/-- Evaluate one statement. -/
def evalStmt (c : ConfigState) : Stmt → Except String ConfigState
  | .assignOpt k v => .ok (setOpt c k v)
  | .raise msg => .error msg

/-- Evaluate a list of statements in order, stopping at the first error. -/
def evalStmts (c : ConfigState) : List Stmt → Except String ConfigState
  | [] => .ok c
  | s :: rest =>
    match evalStmt c s with
    | .ok c2 => evalStmts c2 rest
    | .error e => .error e

/-- The statements of `jupyter_lab_config.py`, in source order. -/
def fileStatements : List Stmt :=
  [ .assignOpt "token" (.str ""),
    .assignOpt "password" (.str ""),
    .assignOpt "ip" (.str "0.0.0.0"),
    .assignOpt "allow_origin" (.str "*"),
    .assignOpt "allow_remote_access" (.bool true),
    .assignOpt "disable_check_xsrf" (.bool true),
    .assignOpt "port" (.int 8888),
    .assignOpt "allow_iframe" (.bool true),
    .assignOpt "tornado_settings" tornadoSettingsValue ]

/-- The nine rows of the table in spec section 6, as (option, value) pairs. -/
def specTable : List (String × ConfigValue) :=
  [ ("token", .str ""),
    ("password", .str ""),
    ("ip", .str "0.0.0.0"),
    ("allow_origin", .str "*"),
    ("allow_remote_access", .bool true),
    ("disable_check_xsrf", .bool true),
    ("port", .int 8888),
    ("allow_iframe", .bool true),
    ("tornado_settings", tornadoSettingsValue) ]

/-- The option names assigned by the file. -/
def assignedKeys : List String := specTable.map Prod.fst

/-- Look up a key in a dictionary value; `none` on non-dictionaries. -/
def getDictEntry : ConfigValue → String → Option ConfigValue
  | .dict entries, k => entries.lookup k
  | .str _, _ => none
  | .bool _, _ => none
  | .int _, _ => none

/-- Helper: the loaded state, at any key, is the table's value for that key
when the table has one, and the initial state's value otherwise. -/
theorem load_lookup (c : ConfigState) (k : String) :
    jupyterLabConfig c k = (specTable.lookup k).or (c k) := by
  by_cases h1 : k = "token"
  · subst h1; rfl
  · by_cases h2 : k = "password"
    · subst h2; rfl
    · by_cases h3 : k = "ip"
      · subst h3; rfl
      · by_cases h4 : k = "allow_origin"
        · subst h4; rfl
        · by_cases h5 : k = "allow_remote_access"
          · subst h5; rfl
          · by_cases h6 : k = "disable_check_xsrf"
            · subst h6; rfl
            · by_cases h7 : k = "port"
              · subst h7; rfl
              · by_cases h8 : k = "allow_iframe"
                · subst h8; rfl
                · by_cases h9 : k = "tornado_settings"
                  · subst h9; rfl
                  · have e1 : (k == "token") = false := beq_eq_false_iff_ne.mpr h1
                    have e2 : (k == "password") = false := beq_eq_false_iff_ne.mpr h2
                    have e3 : (k == "ip") = false := beq_eq_false_iff_ne.mpr h3
                    have e4 : (k == "allow_origin") = false := beq_eq_false_iff_ne.mpr h4
                    have e5 : (k == "allow_remote_access") = false := beq_eq_false_iff_ne.mpr h5
                    have e6 : (k == "disable_check_xsrf") = false := beq_eq_false_iff_ne.mpr h6
                    have e7 : (k == "port") = false := beq_eq_false_iff_ne.mpr h7
                    have e8 : (k == "allow_iframe") = false := beq_eq_false_iff_ne.mpr h8
                    have e9 : (k == "tornado_settings") = false := beq_eq_false_iff_ne.mpr h9
                    simp [jupyterLabConfig, setOpt, specTable, List.lookup,
                      e1, e2, e3, e4, e5, e6, e7, e8, e9,
                      h1, h2, h3, h4, h5, h6, h7, h8, h9]

/-- Initial configuration state with nothing assigned. -/
def emptyConfig : ConfigState := fun _ => none

/-- Initial configuration state with every option pre-assigned, including a
pre-existing `tornado_settings` dictionary with a spurious header. -/
def presetConfig : ConfigState :=
  fun _ => some (.dict [("headers", .dict [("X-Previous", .str "kept")])])

/-- C1: loading the file assigns exactly the nine options of the table in
spec section 6, with the table's values, and no other option: at a key the
table covers the result is the table's value, and at any other key the
initial state's value is unchanged. -/
theorem claim_C1 (c : ConfigState) (k : String) :
    jupyterLabConfig c k = (specTable.lookup k).or (c k) :=
  load_lookup c k

/-- C2: after loading, the `token` option and the `password` option both
equal the empty string, whatever the initial state was. -/
theorem claim_C2 (c : ConfigState) :
    jupyterLabConfig c "token" = some (.str "") ∧
    jupyterLabConfig c "password" = some (.str "") :=
  ⟨rfl, rfl⟩

/-- C3: after loading, the value stored at
`tornado_settings.headers.Content-Security-Policy` is exactly the listed
string, character for character, including the trailing semicolon. -/
theorem claim_C3 (c : ConfigState) :
    ((jupyterLabConfig c "tornado_settings").bind
        (fun v => getDictEntry v "headers")).bind
      (fun v => getDictEntry v "Content-Security-Policy") =
      some (.str "frame-ancestors \x27self\x27 *; script-src \x27self\x27 \x27unsafe-inline\x27 \x27unsafe-eval\x27 *; style-src \x27self\x27 \x27unsafe-inline\x27 *;") :=
  rfl

/-- C4: after loading, the `disable_check_xsrf` option equals the boolean
`true`. -/
theorem claim_C4 (c : ConfigState) :
    jupyterLabConfig c "disable_check_xsrf" = some (.bool true) :=
  rfl

/-- C5: after loading, the `allow_origin` option equals the string `*` and
the `allow_remote_access` option equals the boolean `true`. -/
theorem claim_C5 (c : ConfigState) :
    jupyterLabConfig c "allow_origin" = some (.str "*") ∧
    jupyterLabConfig c "allow_remote_access" = some (.bool true) :=
  ⟨rfl, rfl⟩

/-- C6: after loading, the `ip` option equals the string `0.0.0.0` and the
`port` option equals the integer 8888. -/
theorem claim_C6 (c : ConfigState) :
    jupyterLabConfig c "ip" = some (.str "0.0.0.0") ∧
    jupyterLabConfig c "port" = some (.int 8888) :=
  ⟨rfl, rfl⟩

/-- C7: after loading, the `allow_iframe` option equals the boolean
`true`. -/
theorem claim_C7 (c : ConfigState) :
    jupyterLabConfig c "allow_iframe" = some (.bool true) :=
  rfl

/-- C8: evaluating the statements of the file never raises an error: from
every initial state, evaluation returns normally, producing exactly the
state of the direct update chain. -/
theorem claim_C8 (c : ConfigState) :
    evalStmts c fileStatements = .ok (jupyterLabConfig c) :=
  rfl

/-- C9: loading is a pure sequence of constant assignments: the values of
the nine assigned options after loading do not depend on the initial state,
and loading twice yields the same state as loading once. -/
theorem claim_C9 :
    (∀ a b : ConfigState, ∀ k, k ∈ assignedKeys →
        jupyterLabConfig a k = jupyterLabConfig b k) ∧
    (∀ c : ConfigState, ∀ k,
        jupyterLabConfig (jupyterLabConfig c) k = jupyterLabConfig c k) := by
  constructor
  · intro a b k hk
    simp [assignedKeys, specTable] at hk
    rcases hk with rfl | rfl | rfl | rfl | rfl | rfl | rfl | rfl | rfl <;> rfl
  · intro c k
    rw [load_lookup, load_lookup]
    cases specTable.lookup k <;> simp [Option.or]

/-- Witness for C9: the `token` option after loading is the same whether the
initial state is empty or fully pre-assigned. -/
theorem claim_C9_witness :
    jupyterLabConfig emptyConfig "token" = jupyterLabConfig presetConfig "token" :=
  claim_C9.1 emptyConfig presetConfig "token" (by decide)

/-- C10: the `tornado_settings` option is assigned wholesale, not merged:
whatever value it held in the initial state, after loading it equals a
dictionary whose only key is `headers`, whose value is a dictionary whose
only key is `Content-Security-Policy`. -/
theorem claim_C10 (c : ConfigState) (v0 : ConfigValue) :
    jupyterLabConfig (setOpt c "tornado_settings" v0) "tornado_settings" =
        some tornadoSettingsValue ∧
    tornadoSettingsValue =
      .dict [("headers", .dict [("Content-Security-Policy", .str cspValue)])] :=
  ⟨rfl, rfl⟩
